import Mathlib

/-
Shallow embedding of `src/Capitalist World CLI/TerminalUI.cpp`.

The C++ file keeps six globals guarded by one mutex:
  gOriginalTermios / gHasOriginalTermios  (terminal mode snapshot),
  gSupportsAnsi, gPromptRendered, gStatusLineActive, gPromptSuspended.
Each public operation is modelled as a pure function from an environment
snapshot (what the system calls `isatty`, `getenv`, `tcgetattr`,
`tcsetattr`, `ioctl` would report during that single call) and the current
global state to the next state plus the list of output events written to
stdout.  Output events correspond one-to-one to the raw writes and escape
sequences the code emits; a small screen interpreter gives them meaning
for the cursor/row claims.
-/

namespace TerminalUI

/-- Output events written to stdout.  Each constructor corresponds to one
write in `TerminalUI.cpp`: `text` is a prompt/status byte string,
`clearLine` is `ESC[2K`, `move` is `ESC[row;colH` (already clamped to be
at least 1 by `moveCursor`), `saveCursor` / `restoreCursor` are the
legacy-plus-ANSI save/restore pairs (`ESC7 ESC[s` / `ESC8 ESC[u`),
`newline` is a `\n` byte, `carriageReturn` a `\r` byte, and `flush` the
`std::flush` / `std::endl` flush. -/
inductive Out : Type
  | text (s : String)
  | clearLine
  | move (row col : Nat)
  | saveCursor
  | restoreCursor
  | newline
  | carriageReturn
  | flush
  deriving Repr, DecidableEq

/-- The process-wide mutable globals of `TerminalUI.cpp`.  The termios
structure is opaque to the program (it only copies it around), so it is
modelled as a `Nat`. -/
structure UIState where
  hasOriginalTermios : Bool
  originalTermios : Nat
  supportsAnsi : Bool
  promptRendered : Bool
  statusLineActive : Bool
  promptSuspended : Bool
  deriving Repr, DecidableEq

/-- The initial values of the globals: every flag `false`, zero-initialised
termios buffer. -/
def initialState : UIState :=
  { hasOriginalTermios := false
    originalTermios := 0
    supportsAnsi := false
    promptRendered := false
    statusLineActive := false
    promptSuspended := false }

/-- Snapshot of what the operating system reports during one call:
the two `getenv` results (`none` models a null pointer), the two `isatty`
results, the termios value `tcgetattr` would read from stdin, whether
`tcgetattr` / `tcsetattr` succeed, and the `ioctl(TIOCGWINSZ)` outcome
(`ioctlOk` is whether the call succeeds, `wsRow` the reported `ws_row`,
an unsigned value). -/
structure Env where
  forceAnsi : Option String
  disableAnsi : Option String
  stdoutTty : Bool
  stdinTty : Bool
  stdinTermios : Nat
  tcgetattrOk : Bool
  tcsetattrOk : Bool
  ioctlOk : Bool
  wsRow : Nat
  deriving Repr, DecidableEq

/-- Model of `terminalRows`: fails when the `ioctl` fails or reports a
non-positive row count, otherwise returns the row count. -/
def terminalRows (e : Env) : Option Nat :=
  if !e.ioctlOk then none
  else if e.wsRow = 0 then none
  else some e.wsRow

/-- Model of `moveCursor`: clamps row and column to at least 1 and emits
the `ESC[row;colH` sequence. -/
def moveCursor (row col : Nat) : Out :=
  Out.move (max row 1) (max col 1)

/-- Whether a `getenv` result is a non-null pointer to a non-empty string,
i.e. the condition under which `ConfigureTerminalForPrompt` honours an
override variable. -/
def envSet : Option String → Bool
  | some v => v ≠ ""
  | none => false

/-- Model of `ConfigureTerminalForPrompt`.  Returns the `int32_t` status
code and the new globals.  Mirrors the source order: determine ANSI
support from `isatty(stdout)` with the force/disable overrides, store it
in `gSupportsAnsi`, then, when stdin is a tty, snapshot and modify the
terminal mode; `gHasOriginalTermios` is assigned only on the success
paths, exactly as in the source (the early `return -1`s skip it). -/
def ConfigureTerminalForPrompt (e : Env) (s : UIState) : Int × UIState :=
  let ansi0 := e.stdoutTty
  let ansi1 :=
    match e.forceAnsi with
    | some v => if v ≠ "" then true else ansi0
    | none => ansi0
  let ansi2 :=
    match e.disableAnsi with
    | some v => if v ≠ "" then false else ansi1
    | none => ansi1
  let s1 := { s with supportsAnsi := ansi2 }
  if e.stdinTty then
    if !e.tcgetattrOk then (-1, s1)
    else
      let s2 := { s1 with originalTermios := e.stdinTermios }
      if !e.tcsetattrOk then (-1, s2)
      else (0, { s2 with hasOriginalTermios := true })
  else (0, { s1 with hasOriginalTermios := false })

/-- Model of `RestoreTerminalSettings`.  The second component records the
termios value written back to stdin by `tcsetattr` (`none` when the call
returns without restoring anything). -/
def RestoreTerminalSettings (s : UIState) : UIState × Option Nat :=
  if s.hasOriginalTermios then
    ({ s with hasOriginalTermios := false }, some s.originalTermios)
  else (s, none)

/-- Model of `SuspendPromptUpdates`: early-out when ANSI is unsupported;
otherwise blank the four logical rows (or the current line when geometry
is unavailable or there are fewer than 4 rows) when a prompt is rendered,
then set the suspended flag and clear the rendered/active flags. -/
def SuspendPromptUpdates (e : Env) (s : UIState) : UIState × List Out :=
  if !s.supportsAnsi then (s, [])
  else
    let out : List Out :=
      if s.promptRendered then
        match terminalRows e with
        | some rows =>
          if 4 ≤ rows then
            [moveCursor rows 1, Out.clearLine,
             moveCursor (rows - 1) 1, Out.clearLine,
             moveCursor (rows - 2) 1, Out.clearLine,
             moveCursor (rows - 3) 1, Out.clearLine,
             moveCursor rows 1, Out.flush]
          else [Out.carriageReturn, Out.clearLine, Out.newline, Out.flush]
        | none => [Out.carriageReturn, Out.clearLine, Out.newline, Out.flush]
      else []
    ({ s with promptSuspended := true, statusLineActive := false, promptRendered := false },
     out)

/-- Model of `ResumePromptUpdates`: clears the suspended flag, nothing
else. -/
def ResumePromptUpdates (s : UIState) : UIState :=
  { s with promptSuspended := false }

/-- Model of `renderPromptFallback`: plain sequential output, then mark
the prompt rendered with no active status line. -/
def renderPromptFallback (prompt status : String) (s : UIState) : UIState × List Out :=
  ({ s with promptRendered := true, statusLineActive := false, promptSuspended := false },
   [Out.carriageReturn, Out.clearLine, Out.text prompt, Out.newline,
    Out.clearLine, Out.text status, Out.flush])

/-- Model of `renderPromptFancy`: absolute-row redraw when geometry is
available with at least 4 rows, falling back to `renderPromptFallback`
otherwise.  The dead `promptRow < 1` re-check of the source is kept. -/
def renderPromptFancy (e : Env) (prompt status : String) (s : UIState) :
    UIState × List Out :=
  match terminalRows e with
  | none => renderPromptFallback prompt status s
  | some rows =>
    if rows < 4 then renderPromptFallback prompt status s
    else
      let promptRow := rows - 3
      let statusRow := rows - 2
      let paddingRow := rows - 1
      let bottomRow := rows
      if promptRow < 1 then renderPromptFallback prompt status s
      else
        ({ s with
             promptRendered := true
             statusLineActive := true
             promptSuspended := false },
         [moveCursor bottomRow 1, Out.clearLine,
          moveCursor paddingRow 1, Out.clearLine,
          moveCursor statusRow 1, Out.clearLine, Out.text status,
          moveCursor promptRow 1, Out.clearLine, Out.text prompt,
          moveCursor promptRow (prompt.length + 1), Out.flush])

/-- Model of `RenderPrompt` (null string pointers already replaced by
empty strings at the C boundary). -/
def RenderPrompt (e : Env) (prompt status : String) (s : UIState) :
    UIState × List Out :=
  if s.supportsAnsi then renderPromptFancy e prompt status s
  else renderPromptFallback prompt status s

/-- Model of `UpdateStatusLine`: no-op before a render and in
fallback/suspended states; otherwise patch the status row, degrading to
an unpositioned save/clear/write/restore when geometry is unavailable or
reports fewer than 3 rows.  The state is never modified. -/
def UpdateStatusLine (e : Env) (status : String) (s : UIState) :
    UIState × List Out :=
  if !s.promptRendered then (s, [])
  else if !s.supportsAnsi || !s.statusLineActive || s.promptSuspended then (s, [])
  else
    match terminalRows e with
    | none =>
      (s, [Out.saveCursor, Out.carriageReturn, Out.clearLine, Out.text status,
           Out.restoreCursor, Out.flush])
    | some rows =>
      if rows < 3 then
        (s, [Out.saveCursor, Out.carriageReturn, Out.clearLine, Out.text status,
             Out.restoreCursor, Out.flush])
      else
        let statusRow := rows - 2
        if statusRow < 1 then
          (s, [Out.saveCursor, Out.carriageReturn, Out.clearLine, Out.text status,
               Out.restoreCursor, Out.flush])
        else
          (s, [Out.saveCursor, moveCursor statusRow 1, Out.clearLine,
               Out.text status, Out.restoreCursor, Out.flush])

/-! ### Screen interpreter for the output events

Rows are 1-based; each row's content is a list of characters.  Writing
text overwrites the row starting at the cursor column (padding with
spaces when the cursor sits past the end of the line), exactly the effect
of the emitted escape sequences on a terminal wide enough for the text. -/

/-- Terminal screen: row contents, cursor position and the save/restore
cursor slot. -/
structure Screen where
  line : Nat → List Char
  row : Nat
  col : Nat
  savedRow : Nat
  savedCol : Nat

/-- Overwrite `old` starting at 0-based position `p` with `s`, padding
with spaces when `p` is past the end of `old`. -/
def overwrite (old : List Char) (p : Nat) (s : List Char) : List Char :=
  let padded := old ++ List.replicate (p - old.length) ' '
  padded.take p ++ s ++ padded.drop (p + s.length)

/-- Effect of one output event on the screen. -/
def applyOut (sc : Screen) : Out → Screen
  | Out.text s =>
    { sc with
      line := fun r =>
        if r = sc.row then overwrite (sc.line sc.row) (sc.col - 1) s.toList
        else sc.line r
      col := sc.col + s.length }
  | Out.clearLine => { sc with line := fun r => if r = sc.row then [] else sc.line r }
  | Out.move r c => { sc with row := r, col := c }
  | Out.saveCursor => { sc with savedRow := sc.row, savedCol := sc.col }
  | Out.restoreCursor => { sc with row := sc.savedRow, col := sc.savedCol }
  | Out.newline => { sc with row := sc.row + 1 }
  | Out.carriageReturn => { sc with col := 1 }
  | Out.flush => sc

/-- Effect of a whole output trace on the screen. -/
def applyTrace (sc : Screen) (out : List Out) : Screen :=
  out.foldl applyOut sc

/-- Whether an output event is a cursor-addressing escape sequence
(`ESC[row;colH`). -/
def isCursorAddress : Out → Bool
  | Out.move _ _ => true
  | _ => false

/-- The render-state invariants stated by the spec for the three render
flags. -/
def renderInv (s : UIState) : Prop :=
  (s.statusLineActive = true → s.promptRendered = true) ∧
  (s.promptSuspended = true → s.statusLineActive = false)

instance (s : UIState) : Decidable (renderInv s) := by
  unfold renderInv; infer_instance

/-- Sample environment used by concrete witnesses: both streams are
terminals, no override variables, all system calls succeed, 24 rows. -/
def sampleEnv : Env :=
  { forceAnsi := none
    disableAnsi := none
    stdoutTty := true
    stdinTty := true
    stdinTermios := 5
    tcgetattrOk := true
    tcsetattrOk := true
    ioctlOk := true
    wsRow := 24 }

/-- Sample blank screen used by concrete witnesses. -/
def sampleScreen : Screen :=
  { line := fun _ => [], row := 1, col := 1, savedRow := 1, savedCol := 1 }

/-- A state holding an unrestored terminal-mode snapshot, as left behind by
an earlier successful configure call. -/
def heldState : UIState :=
  { initialState with hasOriginalTermios := true, originalTermios := 3 }

/-- A state whose only deviation from the initial one is that ANSI support
was detected. -/
def ansiState : UIState :=
  { initialState with supportsAnsi := true }

/-- Environment in which applying the modified terminal mode fails. -/
def failEnv : Env :=
  { sampleEnv with tcsetattrOk := false }

/-- Environment in which stdin is not a terminal. -/
def noTtyEnv : Env :=
  { sampleEnv with stdinTty := false }

/-- Environment with both override variables set non-empty. -/
def bothEnv : Env :=
  { sampleEnv with forceAnsi := some "1", disableAnsi := some "1" }

/-! ### Helper lemmas -/

/-- The capability flag after any configure call, in every branch: the
disable override wins, then the force override, then `isatty(stdout)`. -/
theorem configure_supportsAnsi (e : Env) (s : UIState) :
    (ConfigureTerminalForPrompt e s).2.supportsAnsi =
      (if envSet e.disableAnsi then false
       else if envSet e.forceAnsi then true else e.stdoutTty) := by
  rcases e with ⟨force, disable, so, si, tio, tg, ts, io, wr⟩
  unfold ConfigureTerminalForPrompt envSet
  cases force <;> cases disable <;> cases si <;> cases tg <;> cases ts <;>
    dsimp only <;> split <;> simp_all

/-- Configure never touches the three render flags. -/
theorem configure_render_flags (e : Env) (s : UIState) :
    (ConfigureTerminalForPrompt e s).2.promptRendered = s.promptRendered ∧
    (ConfigureTerminalForPrompt e s).2.statusLineActive = s.statusLineActive ∧
    (ConfigureTerminalForPrompt e s).2.promptSuspended = s.promptSuspended := by
  unfold ConfigureTerminalForPrompt
  repeat' split
  all_goals simp

/-- UpdateStatusLine never modifies the state, in every branch. -/
theorem updateStatusLine_state (e : Env) (st : String) (s : UIState) :
    (UpdateStatusLine e st s).1 = s := by
  unfold UpdateStatusLine
  repeat first | rfl | split | dsimp only

/-- Overwriting the empty line starting at position 0 yields exactly the
written text. -/
theorem overwrite_nil (s : List Char) : overwrite [] 0 s = s := by
  simp [overwrite]

/-! ### Claims -/

/-- C2: after `ConfigureTerminalForPrompt`, for every combination of the
two environment signals and the stdout-interactive status, `ansiSupported`
is false whenever the disable signal is present and non-empty (even
against a non-empty force signal); it is true when the force signal is
present and non-empty and the disable signal is absent or empty; otherwise
it equals whether stdout is an interactive terminal. -/
theorem c2_ansi_capability (e : Env) (s : UIState) :
    (envSet e.disableAnsi = true →
      (ConfigureTerminalForPrompt e s).2.supportsAnsi = false) ∧
    (envSet e.forceAnsi = true → envSet e.disableAnsi = false →
      (ConfigureTerminalForPrompt e s).2.supportsAnsi = true) ∧
    (envSet e.forceAnsi = false → envSet e.disableAnsi = false →
      (ConfigureTerminalForPrompt e s).2.supportsAnsi = e.stdoutTty) := by
  have h := configure_supportsAnsi e s
  refine ⟨fun hd => ?_, fun hf hd => ?_, fun hf hd => ?_⟩ <;>
    rw [h] <;> simp [hd] <;> simp [hf]

/-- Witness for C2: with both signals set non-empty, the disable signal
wins and the capability flag is false. -/
theorem c2_ansi_capability_witness :
    envSet bothEnv.disableAnsi = true ∧
    (ConfigureTerminalForPrompt bothEnv initialState).2.supportsAnsi = false :=
  ⟨by decide, (c2_ansi_capability bothEnv initialState).1 (by decide)⟩

/-- C7: `RestoreTerminalSettings` restores the captured mode to stdin if
and only if a snapshot is held, clears the held flag afterward, is a
state-preserving no-op when no snapshot is held, and a second consecutive
call performs no restore and changes no state. -/
theorem c7_restore_iff_snapshot (s : UIState) :
    (s.hasOriginalTermios = true →
      RestoreTerminalSettings s =
        ({ s with hasOriginalTermios := false }, some s.originalTermios)) ∧
    (s.hasOriginalTermios = false →
      RestoreTerminalSettings s = (s, none)) ∧
    RestoreTerminalSettings (RestoreTerminalSettings s).1 =
      ((RestoreTerminalSettings s).1, none) := by
  unfold RestoreTerminalSettings
  rcases s with ⟨hot, o, a, p, st, su⟩
  cases hot <;> simp

/-- Witness for C7 at a state holding a snapshot. -/
theorem c7_restore_iff_snapshot_witness :
    heldState.hasOriginalTermios = true ∧
    RestoreTerminalSettings heldState =
      ({ heldState with hasOriginalTermios := false }, some heldState.originalTermios) :=
  ⟨by decide, (c7_restore_iff_snapshot heldState).1 (by decide)⟩

/-- C8: for every status text and environment, `UpdateStatusLine` before
any render (`promptRendered` false) is a no-op: no output, state
unchanged. -/
theorem c8_update_before_render_noop (e : Env) (st : String) (s : UIState)
    (h : s.promptRendered = false) :
    UpdateStatusLine e st s = (s, []) := by
  unfold UpdateStatusLine
  simp [h]

/-- Witness for C8 at the initial state. -/
theorem c8_update_before_render_noop_witness :
    initialState.promptRendered = false ∧
    UpdateStatusLine sampleEnv "Balance: 90" initialState = (initialState, []) :=
  ⟨by decide,
   c8_update_before_render_noop sampleEnv "Balance: 90" initialState (by decide)⟩

/-- C10: when stdin is not an interactive terminal,
`ConfigureTerminalForPrompt` returns 0 and unconditionally clears the
snapshot-held flag — even over a still-held earlier snapshot — so a
subsequent `RestoreTerminalSettings` is a no-op that writes nothing back. -/
theorem c10_configure_stdin_not_tty (e : Env) (s : UIState)
    (h : e.stdinTty = false) :
    (ConfigureTerminalForPrompt e s).1 = 0 ∧
    (ConfigureTerminalForPrompt e s).2.hasOriginalTermios = false ∧
    RestoreTerminalSettings (ConfigureTerminalForPrompt e s).2 =
      ((ConfigureTerminalForPrompt e s).2, none) := by
  unfold ConfigureTerminalForPrompt RestoreTerminalSettings
  simp [h]

/-- Witness for C10: stdin not a tty while an earlier snapshot is still
held. -/
theorem c10_configure_stdin_not_tty_witness :
    noTtyEnv.stdinTty = false ∧
    ((ConfigureTerminalForPrompt noTtyEnv heldState).1 = 0 ∧
     (ConfigureTerminalForPrompt noTtyEnv heldState).2.hasOriginalTermios = false ∧
     RestoreTerminalSettings (ConfigureTerminalForPrompt noTtyEnv heldState).2 =
       ((ConfigureTerminalForPrompt noTtyEnv heldState).2, none)) :=
  ⟨by decide, c10_configure_stdin_not_tty noTtyEnv heldState (by decide)⟩

/-- C1: the render-state invariants — `statusLineActive` implies
`promptRendered`, `suspended` implies not `statusLineActive` — hold in the
initial state, all three flags start false, and every public operation
preserves them. -/
theorem c1_render_invariants :
    renderInv initialState ∧
    initialState.promptRendered = false ∧
    initialState.statusLineActive = false ∧
    initialState.promptSuspended = false ∧
    (∀ e s, renderInv s → renderInv (ConfigureTerminalForPrompt e s).2) ∧
    (∀ s, renderInv s → renderInv (RestoreTerminalSettings s).1) ∧
    (∀ e p st s, renderInv s → renderInv (RenderPrompt e p st s).1) ∧
    (∀ e st s, renderInv s → renderInv (UpdateStatusLine e st s).1) ∧
    (∀ e s, renderInv s → renderInv (SuspendPromptUpdates e s).1) ∧
    (∀ s, renderInv s → renderInv (ResumePromptUpdates s)) := by
  refine ⟨by decide, by decide, by decide, by decide, ?_, ?_, ?_, ?_, ?_, ?_⟩
  · intro e s h
    obtain ⟨h1, h2, h3⟩ := configure_render_flags e s
    unfold renderInv at *
    rw [h1, h2, h3]
    exact h
  · intro s h
    unfold RestoreTerminalSettings
    split <;> simpa [renderInv] using h
  · intro e p st s h
    unfold RenderPrompt renderPromptFancy renderPromptFallback
    repeat' (first | split | dsimp only)
    all_goals simp [renderInv]
  · intro e st s h
    rw [updateStatusLine_state]
    exact h
  · intro e s h
    unfold SuspendPromptUpdates
    split
    · exact h
    · simp [renderInv]
  · intro s h
    unfold ResumePromptUpdates renderInv at *
    simp only
    exact ⟨h.1, by simp⟩

/-- Witness for C1: the invariants hold initially and are preserved by a
concrete suspend call. -/
theorem c1_render_invariants_witness :
    renderInv initialState ∧
    renderInv (SuspendPromptUpdates sampleEnv initialState).1 :=
  ⟨by decide,
   c1_render_invariants.2.2.2.2.2.2.2.2.1 sampleEnv initialState (by decide)⟩

/-- C3 is refuted at a concrete input: starting from a state still holding
a snapshot from an earlier configure call, a configure call whose
`tcsetattr` fails returns -1 yet leaves the snapshot-held flag true, so a
snapshot is retained after the failure, contrary to the claim. -/
theorem c3_counterexample :
    (ConfigureTerminalForPrompt failEnv heldState).1 = -1 ∧
    (ConfigureTerminalForPrompt failEnv heldState).2.hasOriginalTermios = true := by
  decide

/-- C3 (amended): whenever `ConfigureTerminalForPrompt` fails it returns a
negative status code (always -1), leaves the snapshot-held flag unchanged
from before the call — in particular, if no snapshot was held before the
call, none is retained — and leaves the capability flag at its last
determined value. -/
theorem c3_configure_failure_amended (e : Env) (s : UIState)
    (h : (ConfigureTerminalForPrompt e s).1 < 0) :
    (ConfigureTerminalForPrompt e s).1 = -1 ∧
    (ConfigureTerminalForPrompt e s).2.hasOriginalTermios = s.hasOriginalTermios ∧
    (s.hasOriginalTermios = false →
      (ConfigureTerminalForPrompt e s).2.hasOriginalTermios = false) ∧
    (ConfigureTerminalForPrompt e s).2.supportsAnsi =
      (if envSet e.disableAnsi then false
       else if envSet e.forceAnsi then true else e.stdoutTty) := by
  have hs := configure_supportsAnsi e s
  revert h hs
  unfold ConfigureTerminalForPrompt
  repeat' split
  all_goals intro h hs
  all_goals simp_all

/-- Witness for C3 (amended) at a failing configure from the initial
state. -/
theorem c3_configure_failure_amended_witness :
    (ConfigureTerminalForPrompt failEnv initialState).1 < 0 ∧
    (ConfigureTerminalForPrompt failEnv initialState).2.hasOriginalTermios =
      initialState.hasOriginalTermios :=
  ⟨by decide, (c3_configure_failure_amended failEnv initialState (by decide)).2.1⟩

/-- C4 is refuted at a concrete input: with ANSI unsupported (the initial
state), `SuspendPromptUpdates` returns before touching any flag, so the
suspended flag stays false, contrary to "always sets the suspended flag on
every call and from every starting state". -/
theorem c4_counterexample :
    (SuspendPromptUpdates sampleEnv initialState).1.promptSuspended = false := by
  decide

/-- C4 (amended): when ANSI is supported, `SuspendPromptUpdates` sets the
session-wide suspended flag to true on every call and from every starting
state, regardless of whether a prompt was rendered or anything was drawn;
when ANSI is unsupported the entire call — the flag update included — is a
no-op. -/
theorem c4_suspend_amended (e : Env) (s : UIState) :
    (s.supportsAnsi = true →
      (SuspendPromptUpdates e s).1.promptSuspended = true) ∧
    (s.supportsAnsi = false → SuspendPromptUpdates e s = (s, [])) := by
  unfold SuspendPromptUpdates
  constructor
  · intro h
    simp [h]
  · intro h
    simp [h]

/-- Witness for C4 (amended): a suspend call with ANSI supported and
nothing drawn still sets the flag. -/
theorem c4_suspend_amended_witness :
    ansiState.supportsAnsi = true ∧
    (SuspendPromptUpdates sampleEnv ansiState).1.promptSuspended = true :=
  ⟨by decide, (c4_suspend_amended sampleEnv ansiState).1 (by decide)⟩

/-- A capable-mode render with geometry available and at least 4 rows
takes the fancy path and produces exactly the bottom-up clear/write trace
of `renderPromptFancy`, ending with the cursor parked after the prompt
text. -/
theorem renderPrompt_capable_trace (e : Env) (p st : String) (s : UIState)
    (rows : Nat) (hA : s.supportsAnsi = true) (hr : terminalRows e = some rows)
    (h4 : 4 ≤ rows) :
    RenderPrompt e p st s =
      ({ s with promptRendered := true, statusLineActive := true, promptSuspended := false },
       [Out.move rows 1, Out.clearLine,
        Out.move (rows - 1) 1, Out.clearLine,
        Out.move (rows - 2) 1, Out.clearLine, Out.text st,
        Out.move (rows - 3) 1, Out.clearLine, Out.text p,
        Out.move (rows - 3) (p.length + 1), Out.flush]) := by
  have hm0 : max rows 1 = rows := Nat.max_eq_left (by omega)
  have hm1 : max (rows - 1) 1 = rows - 1 := Nat.max_eq_left (by omega)
  have hm2 : max (rows - 2) 1 = rows - 2 := Nat.max_eq_left (by omega)
  have hm3 : max (rows - 3) 1 = rows - 3 := Nat.max_eq_left (by omega)
  have hmp : max (p.length + 1) 1 = p.length + 1 := Nat.max_eq_left (by omega)
  have hlt : ¬ rows < 4 := by omega
  have hpr : ¬ rows - 3 < 1 := by omega
  unfold RenderPrompt renderPromptFancy moveCursor
  rw [hA, hr]
  simp [hlt, hpr, hm0, hm1, hm2, hm3, hmp]

/-- C5: in capable mode with 24 rows, `RenderPrompt "> " "Balance: 100"`
writes the prompt at row 21 and the status at row 22, clears rows 23 and
24, and leaves the cursor at row 21, column 3; in general the capable full
render targets prompt row rows-3, status row rows-2, padding row rows-1
and bottom row rows, clearing each target row before writing. -/
theorem c5_render_rows24 :
    (∀ e p st s rows, s.supportsAnsi = true → terminalRows e = some rows →
      4 ≤ rows →
      (RenderPrompt e p st s).2 =
        [Out.move rows 1, Out.clearLine,
         Out.move (rows - 1) 1, Out.clearLine,
         Out.move (rows - 2) 1, Out.clearLine, Out.text st,
         Out.move (rows - 3) 1, Out.clearLine, Out.text p,
         Out.move (rows - 3) (p.length + 1), Out.flush]) ∧
    (∀ s sc, s.supportsAnsi = true →
      (applyTrace sc (RenderPrompt sampleEnv "> " "Balance: 100" s).2).line 21 =
        "> ".toList ∧
      (applyTrace sc (RenderPrompt sampleEnv "> " "Balance: 100" s).2).line 22 =
        "Balance: 100".toList ∧
      (applyTrace sc (RenderPrompt sampleEnv "> " "Balance: 100" s).2).line 23 = [] ∧
      (applyTrace sc (RenderPrompt sampleEnv "> " "Balance: 100" s).2).line 24 = [] ∧
      (applyTrace sc (RenderPrompt sampleEnv "> " "Balance: 100" s).2).row = 21 ∧
      (applyTrace sc (RenderPrompt sampleEnv "> " "Balance: 100" s).2).col = 3) := by
  constructor
  · intro e p st s rows hA hr h4
    rw [renderPrompt_capable_trace e p st s rows hA hr h4]
  · intro s sc hA
    rw [renderPrompt_capable_trace sampleEnv "> " "Balance: 100" s 24 hA (by decide)
        (by decide)]
    refine ⟨?_, ?_, ?_, ?_, ?_, ?_⟩ <;>
      simp [applyTrace, applyOut, overwrite_nil]
    all_goals decide

/-- Witness for C5: the concrete 24-row render on a blank screen puts the
prompt text on row 21. -/
theorem c5_render_rows24_witness :
    ansiState.supportsAnsi = true ∧
    (applyTrace sampleScreen
        (RenderPrompt sampleEnv "> " "Balance: 100" ansiState).2).line 21 =
      "> ".toList :=
  ⟨by decide, (c5_render_rows24.2 ansiState sampleScreen (by decide)).1⟩

/-- C6: after a capable-mode full render with at least 4 rows,
`UpdateStatusLine` changes no render state, emits exactly a save-cursor,
a move to the status row, a clear, the status text and a restore-cursor,
and on any screen changes only the status row's content while returning
the cursor to its pre-update position. -/
theorem c6_status_patch (e : Env) (p st st2 : String) (s : UIState)
    (rows : Nat) (hA : s.supportsAnsi = true) (hr : terminalRows e = some rows)
    (h4 : 4 ≤ rows) :
    (UpdateStatusLine e st2 (RenderPrompt e p st s).1).1 = (RenderPrompt e p st s).1 ∧
    (UpdateStatusLine e st2 (RenderPrompt e p st s).1).2 =
      [Out.saveCursor, Out.move (rows - 2) 1, Out.clearLine, Out.text st2,
       Out.restoreCursor, Out.flush] ∧
    (∀ sc : Screen,
      (applyTrace sc (UpdateStatusLine e st2 (RenderPrompt e p st s).1).2).line
          (rows - 2) = st2.toList ∧
      (∀ r, r ≠ rows - 2 →
        (applyTrace sc (UpdateStatusLine e st2 (RenderPrompt e p st s).1).2).line r =
          sc.line r) ∧
      (applyTrace sc (UpdateStatusLine e st2 (RenderPrompt e p st s).1).2).row =
        sc.row ∧
      (applyTrace sc (UpdateStatusLine e st2 (RenderPrompt e p st s).1).2).col =
        sc.col) := by
  have hlt : ¬ rows < 3 := by omega
  have hsr : ¬ rows - 2 < 1 := by omega
  have hm2 : max (rows - 2) 1 = rows - 2 := Nat.max_eq_left (by omega)
  have hR := renderPrompt_capable_trace e p st s rows hA hr h4
  have hupd :
      UpdateStatusLine e st2 (RenderPrompt e p st s).1 =
        ((RenderPrompt e p st s).1,
         [Out.saveCursor, Out.move (rows - 2) 1, Out.clearLine, Out.text st2,
          Out.restoreCursor, Out.flush]) := by
    rw [hR]
    unfold UpdateStatusLine moveCursor
    rw [hr]
    simp [hlt, hsr, hm2, hA]
  refine ⟨by rw [hupd], by rw [hupd], ?_⟩
  intro sc
  rw [hupd]
  refine ⟨?_, ?_, ?_, ?_⟩
  · simp [applyTrace, applyOut, overwrite_nil]
  · intro r hrr
    simp [applyTrace, applyOut, hrr]
  · simp [applyTrace, applyOut]
  · simp [applyTrace, applyOut]

/-- Witness for C6 at a concrete 24-row render and status update. -/
theorem c6_status_patch_witness :
    ansiState.supportsAnsi = true ∧ terminalRows sampleEnv = some 24 ∧
    (4 : Nat) ≤ 24 ∧
    (UpdateStatusLine sampleEnv "Balance: 90"
        (RenderPrompt sampleEnv "> " "Balance: 100" ansiState).1).2 =
      [Out.saveCursor, Out.move 22 1, Out.clearLine, Out.text "Balance: 90",
       Out.restoreCursor, Out.flush] :=
  ⟨by decide, by decide, by decide,
   (c6_status_patch sampleEnv "> " "Balance: 100" "Balance: 90" ansiState 24
      (by decide) (by decide) (by decide)).2.1⟩

/-- C9: with ANSI unsupported, geometry unavailable or fewer than 4 rows,
`RenderPrompt` takes the fallback path — exactly the prompt line then the
status line as plain sequential output, no cursor-addressing escape
sequence, `statusLineActive` false afterwards; and an active
`UpdateStatusLine` with geometry unavailable or fewer than 3 rows degrades
to an unpositioned save/clear/write/restore on the current line. -/
theorem c9_fallback_paths :
    (∀ e p st s,
      (s.supportsAnsi = false ∨ terminalRows e = none ∨
        (∃ rows, terminalRows e = some rows ∧ rows < 4)) →
      (RenderPrompt e p st s).2 =
        [Out.carriageReturn, Out.clearLine, Out.text p, Out.newline,
         Out.clearLine, Out.text st, Out.flush] ∧
      ((RenderPrompt e p st s).2.all fun o => !isCursorAddress o) = true ∧
      (RenderPrompt e p st s).1.statusLineActive = false) ∧
    (∀ e st s,
      s.promptRendered = true → s.supportsAnsi = true →
      s.statusLineActive = true → s.promptSuspended = false →
      (terminalRows e = none ∨ (∃ rows, terminalRows e = some rows ∧ rows < 3)) →
      UpdateStatusLine e st s =
        (s, [Out.saveCursor, Out.carriageReturn, Out.clearLine, Out.text st,
             Out.restoreCursor, Out.flush])) := by
  constructor
  · intro e p st s h
    have hfb :
        RenderPrompt e p st s =
          ({ s with
               promptRendered := true
               statusLineActive := false
               promptSuspended := false },
           [Out.carriageReturn, Out.clearLine, Out.text p, Out.newline,
            Out.clearLine, Out.text st, Out.flush]) := by
      unfold RenderPrompt renderPromptFancy renderPromptFallback
      rcases h with h | h | ⟨rows, hr, hlt⟩
      · rw [h]
        simp
      · cases hsa : s.supportsAnsi <;> simp [h]
      · cases hsa : s.supportsAnsi <;> simp [hr, hlt]
    rw [hfb]
    simp [isCursorAddress]
  · intro e st s h1 h2 h3 h4 hg
    unfold UpdateStatusLine
    rw [h1, h2, h3, h4]
    rcases hg with hg | ⟨rows, hg, hlt⟩
    · rw [hg]
      simp
    · rw [hg]
      simp [hlt]

/-- Witness for C9: fallback render with ANSI unsupported produces the
plain two-line trace. -/
theorem c9_fallback_paths_witness :
    (initialState.supportsAnsi = false ∨ terminalRows sampleEnv = none ∨
      (∃ rows, terminalRows sampleEnv = some rows ∧ rows < 4)) ∧
    (RenderPrompt sampleEnv "> " "Balance: 10" initialState).2 =
      [Out.carriageReturn, Out.clearLine, Out.text "> ", Out.newline,
       Out.clearLine, Out.text "Balance: 10", Out.flush] :=
  ⟨Or.inl (by decide),
   (c9_fallback_paths.1 sampleEnv "> " "Balance: 10" initialState
      (Or.inl (by decide))).1⟩

end TerminalUI
